import Mathlib

/-!
Formal model of the BlueZ ALSA PCM plugin `ste-pcm_bluetooth.c` (XperiaU
Bluez cm9 tree).  The C source is embedded shallowly: each C function that
the verified properties touch becomes a Lean function over explicit state,
with the operating-system and control-channel effects (socket sends,
receives, reallocation, polling) abstracted into environment records whose
fields carry the observable outcomes of those calls.  Machine-integer
wraparound is made explicit with `% 2^w` where the C types make it matter
(`uint16_t` sequence numbers, `htons`/`htonl` conversions).

Constants from the BlueZ `ipc.h` header (not part of this tree's sources)
use the standard BlueZ bit assignments; only their distinctness and their
role as bitmasks matter to the modelled code.
-/

namespace BtPcm

/-- POSIX error number EPIPE, negated by the plugin on broken-pipe failures. -/
def EPIPE : Int := 32

/-- POSIX error number EAGAIN, reported when the remote closed the endpoint. -/
def EAGAIN : Int := 11

/-- POSIX error number ENOMEM, returned when buffer reallocation fails. -/
def ENOMEM : Int := 12

/-- POSIX error number EIO (value 5). -/
def EIO_code : Int := 5

/-- Sampling-frequency capability bit for 48000 Hz (ipc.h). -/
def BT_SBC_SAMPLING_FREQ_48000 : Nat := 1

/-- Sampling-frequency capability bit for 44100 Hz (ipc.h). -/
def BT_SBC_SAMPLING_FREQ_44100 : Nat := 2

/-- Sampling-frequency capability bit for 32000 Hz (ipc.h). -/
def BT_SBC_SAMPLING_FREQ_32000 : Nat := 4

/-- Sampling-frequency capability bit for 16000 Hz (ipc.h). -/
def BT_SBC_SAMPLING_FREQ_16000 : Nat := 8

/-- Channel-mode capability bit: joint stereo (ipc.h). -/
def BT_A2DP_CHANNEL_MODE_JOINT_STEREO : Nat := 1

/-- Channel-mode capability bit: stereo (ipc.h). -/
def BT_A2DP_CHANNEL_MODE_STEREO : Nat := 2

/-- Channel-mode capability bit: dual channel (ipc.h). -/
def BT_A2DP_CHANNEL_MODE_DUAL_CHANNEL : Nat := 4

/-- Channel-mode capability bit: mono (ipc.h). -/
def BT_A2DP_CHANNEL_MODE_MONO : Nat := 8

/-- Block-length capability bit: 16 blocks (ipc.h). -/
def BT_A2DP_BLOCK_LENGTH_16 : Nat := 1

/-- Block-length capability bit: 12 blocks (ipc.h). -/
def BT_A2DP_BLOCK_LENGTH_12 : Nat := 2

/-- Block-length capability bit: 8 blocks (ipc.h). -/
def BT_A2DP_BLOCK_LENGTH_8 : Nat := 4

/-- Block-length capability bit: 4 blocks (ipc.h). -/
def BT_A2DP_BLOCK_LENGTH_4 : Nat := 8

/-- Subband capability bit: 8 subbands (ipc.h). -/
def BT_A2DP_SUBBANDS_8 : Nat := 1

/-- Subband capability bit: 4 subbands (ipc.h). -/
def BT_A2DP_SUBBANDS_4 : Nat := 2

/-- Allocation-method capability bit: loudness (ipc.h). -/
def BT_A2DP_ALLOCATION_LOUDNESS : Nat := 1

/-- Allocation-method capability bit: SNR (ipc.h). -/
def BT_A2DP_ALLOCATION_SNR : Nat := 2

/-- Global bitpool upper bound (`#define MAX_BITPOOL 64`). -/
def MAX_BITPOOL : Nat := 64

/-- Global bitpool lower bound (`#define MIN_BITPOOL 2`). -/
def MIN_BITPOOL : Nat := 2

/-- Stream state of a Session (`enum stream_state`). -/
inductive StreamState where
  | closed
  | opened
  | configured
  | started
deriving DecidableEq, Repr

/-- Negotiated / advertised SBC capabilities (`sbc_capabilities_t` fields
used by this plugin).  Frequency, channel mode, block length, subbands and
allocation method are capability bitmasks; the bitpool fields are plain
numbers. -/
structure SbcCapabilities where
  frequency : Nat
  channel_mode : Nat
  block_length : Nat
  subbands : Nat
  allocation_method : Nat
  min_bitpool : Nat
  max_bitpool : Nat
deriving DecidableEq, Repr

/-- User configuration overrides (`struct bluetooth_alsa_config`, the
fields relevant to A2DP parameter negotiation).  Each override comes with
a presence flag, mirroring the `has_*` integers of the C structure. -/
structure AlsaConfig where
  has_rate : Bool
  rate : Nat
  has_channel_mode : Bool
  channel_mode : Nat
  has_allocation_method : Bool
  allocation_method : Nat
  has_subbands : Bool
  subbands : Nat
  has_block_length : Bool
  block_length : Nat
  has_bitpool : Bool
  bitpool : Nat
deriving DecidableEq, Repr

/-- Default bitpool table (`default_bitpool`): fixed per rate/mode pair.
The C fall-through cases for an invalid mode return the same value as the
stereo modes, exactly as in the source. -/
def default_bitpool (freq mode : Nat) : Nat :=
  if freq = BT_SBC_SAMPLING_FREQ_16000 ∨ freq = BT_SBC_SAMPLING_FREQ_32000 then
    53
  else if freq = BT_SBC_SAMPLING_FREQ_44100 then
    if mode = BT_A2DP_CHANNEL_MODE_MONO ∨ mode = BT_A2DP_CHANNEL_MODE_DUAL_CHANNEL then 31
    else if mode = BT_A2DP_CHANNEL_MODE_STEREO ∨ mode = BT_A2DP_CHANNEL_MODE_JOINT_STEREO then 53
    else 53
  else if freq = BT_SBC_SAMPLING_FREQ_48000 then
    if mode = BT_A2DP_CHANNEL_MODE_MONO ∨ mode = BT_A2DP_CHANNEL_MODE_DUAL_CHANNEL then 29
    else if mode = BT_A2DP_CHANNEL_MODE_STEREO ∨ mode = BT_A2DP_CHANNEL_MODE_JOINT_STEREO then 51
    else 51
  else 53

/-- Rate conversion (`bluetooth_convert_rate_to_a2dp`): maps a PCM rate in
Hz to the corresponding capability bit; unsupported rates fail. -/
def bluetooth_convert_rate_to_a2dp (rate : Nat) : Option Nat :=
  if rate = 48000 then some BT_SBC_SAMPLING_FREQ_48000
  else if rate = 44100 then some BT_SBC_SAMPLING_FREQ_44100
  else if rate = 32000 then some BT_SBC_SAMPLING_FREQ_32000
  else if rate = 16000 then some BT_SBC_SAMPLING_FREQ_16000
  else none

/-- Channel-mode selection section of `bluetooth_a2dp_init`: an override
is taken verbatim; otherwise the strongest advertised mode matching the
requested channel count is picked, keeping the advertised mask when no
listed bit matches (the zero check happens in `bluetooth_a2dp_init`). -/
def a2dp_init_channel_mode (cfg : AlsaConfig) (cap : SbcCapabilities)
    (channels : Nat) : Nat :=
  if cfg.has_channel_mode then cfg.channel_mode
  else if channels = 2 then
    if cap.channel_mode &&& BT_A2DP_CHANNEL_MODE_JOINT_STEREO ≠ 0 then
      BT_A2DP_CHANNEL_MODE_JOINT_STEREO
    else if cap.channel_mode &&& BT_A2DP_CHANNEL_MODE_STEREO ≠ 0 then
      BT_A2DP_CHANNEL_MODE_STEREO
    else if cap.channel_mode &&& BT_A2DP_CHANNEL_MODE_DUAL_CHANNEL ≠ 0 then
      BT_A2DP_CHANNEL_MODE_DUAL_CHANNEL
    else cap.channel_mode
  else
    if cap.channel_mode &&& BT_A2DP_CHANNEL_MODE_MONO ≠ 0 then
      BT_A2DP_CHANNEL_MODE_MONO
    else cap.channel_mode

/-- Block-length selection section of `bluetooth_a2dp_init`: an override
is taken verbatim; otherwise the largest supported block-length bit is
picked, failing if none is advertised. -/
def a2dp_init_block_length (cfg : AlsaConfig) (cap : SbcCapabilities) :
    Option Nat :=
  if cfg.has_block_length then some cfg.block_length
  else if cap.block_length &&& BT_A2DP_BLOCK_LENGTH_16 ≠ 0 then
    some BT_A2DP_BLOCK_LENGTH_16
  else if cap.block_length &&& BT_A2DP_BLOCK_LENGTH_12 ≠ 0 then
    some BT_A2DP_BLOCK_LENGTH_12
  else if cap.block_length &&& BT_A2DP_BLOCK_LENGTH_8 ≠ 0 then
    some BT_A2DP_BLOCK_LENGTH_8
  else if cap.block_length &&& BT_A2DP_BLOCK_LENGTH_4 ≠ 0 then
    some BT_A2DP_BLOCK_LENGTH_4
  else none

/-- Subband selection section of `bluetooth_a2dp_init`: the override is
applied first and then (by a plain `if`, as in the source) normalised to
the strongest supported bit, failing if neither bit is set. -/
def a2dp_init_subbands (cfg : AlsaConfig) (cap : SbcCapabilities) :
    Option Nat :=
  let sb0 := if cfg.has_subbands then cfg.subbands else cap.subbands
  if sb0 &&& BT_A2DP_SUBBANDS_8 ≠ 0 then some BT_A2DP_SUBBANDS_8
  else if sb0 &&& BT_A2DP_SUBBANDS_4 ≠ 0 then some BT_A2DP_SUBBANDS_4
  else none

/-- Allocation-method selection section of `bluetooth_a2dp_init`: the
override is applied first and then normalised to a single bit; where
neither bit is set the value is left as-is (the source has no failure
case here). -/
def a2dp_init_allocation_method (cfg : AlsaConfig) (cap : SbcCapabilities) :
    Nat :=
  let am0 :=
    if cfg.has_allocation_method then cfg.allocation_method
    else cap.allocation_method
  if am0 &&& BT_A2DP_ALLOCATION_LOUDNESS ≠ 0 then BT_A2DP_ALLOCATION_LOUDNESS
  else if am0 &&& BT_A2DP_ALLOCATION_SNR ≠ 0 then BT_A2DP_ALLOCATION_SNR
  else am0

/-- Bitpool-bound derivation of `bluetooth_a2dp_init`: a bitpool override
pins both bounds; otherwise the lower bound is the advertised minimum
clamped up to `MIN_BITPOOL` and the upper bound is the default-bitpool
table value clamped down to the advertised maximum. -/
def a2dp_init_bitpools (cfg : AlsaConfig) (capMin capMax freq cm : Nat) :
    Nat × Nat :=
  if cfg.has_bitpool then (cfg.bitpool, cfg.bitpool)
  else (max MIN_BITPOOL capMin, min (default_bitpool freq cm) capMax)

/-- Parameter negotiation (`bluetooth_a2dp_init`): converts the requested
rate, intersects the remote capability bitmasks with configuration
overrides section by section, and derives the bitpool bounds.  Returns
the updated capability record, or `none` where the C code returns `-1`.
(The C code mutates the capability record in place even on the failure
paths; no verified property depends on the record after a failure, so the
failure case simply reports `none`.) -/
def bluetooth_a2dp_init (cfg : AlsaConfig) (cap : SbcCapabilities)
    (rate channels : Nat) : Option SbcCapabilities :=
  match bluetooth_convert_rate_to_a2dp rate with
  | none => none
  | some freq =>
    let cm := a2dp_init_channel_mode cfg cap channels
    if cm = 0 then none
    else
      match a2dp_init_block_length cfg cap with
      | none => none
      | some bl =>
        match a2dp_init_subbands cfg cap with
        | none => none
        | some sb =>
          let am := a2dp_init_allocation_method cfg cap
          let bp := a2dp_init_bitpools cfg cap.min_bitpool cap.max_bitpool freq cm
          some ⟨freq, cm, bl, sb, am, bp.1, bp.2⟩

/-- Reconfiguration comparison (`bluetooth_configuration_cmp`): returns 0
when the requested parameters agree with the stored negotiated ones, `-1`
otherwise.  Rate and bitpool are compared for equality; the remaining
fields as bitmask intersections, each gated by its override flag. -/
def bluetooth_configuration_cmp (cfg : AlsaConfig) (cap : SbcCapabilities)
    (rate : Nat) : Int :=
  match bluetooth_convert_rate_to_a2dp rate with
  | none => -1
  | some a2dp_rate =>
    if cap.frequency ≠ a2dp_rate then -1
    else if cfg.has_bitpool = true ∧
        (cap.max_bitpool ≠ cfg.bitpool ∨ cap.min_bitpool ≠ cfg.bitpool) then -1
    else if cfg.has_subbands = true ∧ cfg.subbands &&& cap.subbands = 0 then -1
    else if cfg.has_allocation_method = true ∧
        cfg.allocation_method &&& cap.allocation_method = 0 then -1
    else if cfg.has_block_length = true ∧
        cfg.block_length &&& cap.block_length = 0 then -1
    else if cfg.has_channel_mode = true ∧
        cfg.channel_mode &&& cap.channel_mode = 0 then -1
    else 0

/-- Specification-side reading of "the requested parameters are identical
to the stored negotiated ones, compared field-by-field over rate, bitpool
range, subbands, allocation method, block length and channel mode (the
latter as bitmask intersections)". -/
def configuration_identical (cfg : AlsaConfig) (cap : SbcCapabilities)
    (rate : Nat) : Prop :=
  bluetooth_convert_rate_to_a2dp rate = some cap.frequency ∧
  (cfg.has_bitpool = true → cap.max_bitpool = cfg.bitpool ∧ cap.min_bitpool = cfg.bitpool) ∧
  (cfg.has_subbands = true → cfg.subbands &&& cap.subbands ≠ 0) ∧
  (cfg.has_allocation_method = true → cfg.allocation_method &&& cap.allocation_method ≠ 0) ∧
  (cfg.has_block_length = true → cfg.block_length &&& cap.block_length ≠ 0) ∧
  (cfg.has_channel_mode = true → cfg.channel_mode &&& cap.channel_mode ≠ 0)

instance (cfg : AlsaConfig) (cap : SbcCapabilities) (rate : Nat) :
    Decidable (configuration_identical cfg cap rate) := by
  unfold configuration_identical
  infer_instance

/-- Observable outcomes of the control-channel exchanges and buffer
reallocations performed by a hardware-parameter negotiation.  Each `Int`
field is the value the corresponding `audioservice_send` /
`audioservice_expect` call returns (negative on failure); the Booleans
record whether `realloc` succeeded for each of the two buffers. -/
structure HwParamsEnv where
  open_send : Int
  open_expect : Int
  setconf_send : Int
  setconf_expect : Int
  link_mtu : Nat
  realloc_data : Bool
  realloc_a2dp : Bool
  delay_expect : Int
  delay : Int
deriving DecidableEq, Repr

/-- Buffer resizing step shared verbatim by `bluetooth_a2dp_hw_params` and
`bluetooth_hsp_hw_params`: both buffers are reallocated to the negotiated
link MTU; if either reallocation fails, both are freed and set to NULL and
the operation reports `-ENOMEM`.  A buffer is `some n` when allocated with
size `n`, `none` when NULL. -/
def resize_buffers (okData okA2dp : Bool) (mtu : Nat) :
    Int × Option Nat × Option Nat :=
  let d : Option Nat := if okData then some mtu else none
  let a : Option Nat := if okA2dp then some mtu else none
  if d = none ∨ a = none then (-ENOMEM, none, none) else (0, d, a)

/-- Result of an A2DP hardware-parameter negotiation
(`bluetooth_a2dp_hw_params`): the returned error code, the Session state
afterwards, how many SET_CONFIGURATION requests were issued on the control
channel, the two runtime buffers, the stored link MTU, the stored sink
delay and the stored capability record. -/
structure A2dpHwOut where
  ret : Int
  state : StreamState
  setConfigRequests : Nat
  dataBuffer : Option Nat
  a2dpBuffer : Option Nat
  linkMtu : Nat
  sinkDelay : Int
  cap : SbcCapabilities
deriving DecidableEq, Repr

/-- The `configure:` tail of `bluetooth_a2dp_hw_params`: send
SET_CONFIGURATION, await the response, store the transport MTU, resize
both buffers, await the mandatory delay report, store the sink delay and
mark the stream Configured. -/
def a2dp_hw_params_configure (env : HwParamsEnv) (cap : SbcCapabilities)
    (st : StreamState) (dBuf aBuf : Option Nat) (mtu0 : Nat) (delay0 : Int) :
    A2dpHwOut :=
  if env.setconf_send < 0 then
    ⟨env.setconf_send, st, 1, dBuf, aBuf, mtu0, delay0, cap⟩
  else if env.setconf_expect < 0 then
    ⟨env.setconf_expect, st, 1, dBuf, aBuf, mtu0, delay0, cap⟩
  else
    let mtu := env.link_mtu
    let rb := resize_buffers env.realloc_data env.realloc_a2dp mtu
    if rb.1 < 0 then ⟨-ENOMEM, st, 1, rb.2.1, rb.2.2, mtu, delay0, cap⟩
    else if env.delay_expect < 0 then
      ⟨env.delay_expect, st, 1, rb.2.1, rb.2.2, mtu, delay0, cap⟩
    else ⟨0, StreamState.configured, 1, rb.2.1, rb.2.2, mtu, env.delay, cap⟩

/-- A2DP hardware-parameter negotiation (`bluetooth_a2dp_hw_params`).
When the stream state is not Closed the stored configuration is compared
against the request with `bluetooth_configuration_cmp`; on a match the
call returns success immediately, otherwise it jumps to the `configure:`
tail.  When the state is Closed the stream is first opened
(`stream_open`, here the two `open_*` outcomes) and the parameters
intersected (`bluetooth_a2dp_init`) before configuring. -/
def bluetooth_a2dp_hw_params (env : HwParamsEnv) (cfg : AlsaConfig)
    (cap : SbcCapabilities) (rate channels : Nat) (st : StreamState)
    (dBuf aBuf : Option Nat) (mtu0 : Nat) (delay0 : Int) : A2dpHwOut :=
  if st ≠ StreamState.closed then
    if bluetooth_configuration_cmp cfg cap rate ≠ 0 then
      a2dp_hw_params_configure env cap st dBuf aBuf mtu0 delay0
    else ⟨0, st, 0, dBuf, aBuf, mtu0, delay0, cap⟩
  else if env.open_send < 0 then
    ⟨env.open_send, st, 0, dBuf, aBuf, mtu0, delay0, cap⟩
  else if env.open_expect < 0 then
    ⟨env.open_expect, st, 0, dBuf, aBuf, mtu0, delay0, cap⟩
  else
    match bluetooth_a2dp_init cfg cap rate channels with
    | none => ⟨-1, StreamState.opened, 0, dBuf, aBuf, mtu0, delay0, cap⟩
    | some cap1 =>
      a2dp_hw_params_configure env cap1 StreamState.opened dBuf aBuf mtu0 delay0

/-- Result of an HSP/SCO hardware-parameter negotiation
(`bluetooth_hsp_hw_params`). -/
structure HspHwOut where
  ret : Int
  dataBuffer : Option Nat
  a2dpBuffer : Option Nat
  linkMtu : Nat
  sinkDelay : Int
deriving DecidableEq, Repr

/-- SCO hardware-parameter negotiation (`bluetooth_hsp_hw_params`): OPEN,
SET_CONFIGURATION, store MTU, resize both buffers (failing with `-ENOMEM`
and NULL buffers if either reallocation fails), then consume the delay
report. -/
def bluetooth_hsp_hw_params (env : HwParamsEnv) (dBuf aBuf : Option Nat)
    (mtu0 : Nat) (delay0 : Int) : HspHwOut :=
  if env.open_send < 0 then ⟨env.open_send, dBuf, aBuf, mtu0, delay0⟩
  else if env.open_expect < 0 then ⟨env.open_expect, dBuf, aBuf, mtu0, delay0⟩
  else if env.setconf_send < 0 then ⟨env.setconf_send, dBuf, aBuf, mtu0, delay0⟩
  else if env.setconf_expect < 0 then ⟨env.setconf_expect, dBuf, aBuf, mtu0, delay0⟩
  else
    let mtu := env.link_mtu
    let rb := resize_buffers env.realloc_data env.realloc_a2dp mtu
    if rb.1 < 0 then ⟨-ENOMEM, none, none, mtu, delay0⟩
    else if env.delay_expect < 0 then ⟨env.delay_expect, rb.2.1, rb.2.2, mtu, delay0⟩
    else ⟨0, rb.2.1, rb.2.2, mtu, env.delay⟩

/-- Big-endian byte pair of a 16-bit quantity, as produced by `htons`
into a `uint16_t` field. -/
def beBytes16 (n : Nat) : List Nat :=
  [n / 256 % 256, n % 256]

/-- Big-endian byte quadruple of a 32-bit quantity, as produced by
`htonl` into a `uint32_t` field. -/
def beBytes32 (n : Nat) : List Nat :=
  [n / 2 ^ 24 % 256, n / 2 ^ 16 % 256, n / 256 % 256, n % 256]

/-- Size in bytes of `struct rtp_header`.  Modelled from the spec: the
`rtp.h` header is not part of this tree's sources; the spec describes a
fixed header with version/payload-type bits, a 16-bit sequence number, a
32-bit timestamp and a 32-bit source identifier (12 bytes). -/
def rtp_header_size : Nat := 12

/-- Size in bytes of `struct rtp_payload`.  Modelled from the spec: a
sub-header carrying the count of codec frames in the packet (one byte). -/
def rtp_payload_size : Nat := 1

/-- Combined packet-header size, the value `sizeof(struct rtp_header) +
sizeof(struct rtp_payload)` that the wire-buffer counter is reset to. -/
def packet_header_size : Nat := rtp_header_size + rtp_payload_size

/-- Wire bytes of the packet header built by `avdtp_write`.  Modelled
from the spec for the layout (`rtp.h` absent from the sources); the field
values are exactly the ones the C code stores: version 2, payload type 1,
`htons(seq_num)`, `htonl(nsamples)`, `htonl(1)` as SSRC, then the
frame-count sub-header. -/
def rtp_packet_header_bytes (seq ts fc : Nat) : List Nat :=
  128 :: 1 :: (beBytes16 seq ++ beBytes32 ts ++ beBytes32 1 ++ [fc % 256])

/-- Parse a packet header back: sequence number from bytes 2-3
(big-endian), timestamp from bytes 4-7 (big-endian), frame count from the
sub-header byte at offset 12. -/
def rtp_parse_header (p : List Nat) : Nat × Nat × Nat :=
  (p.getD 2 0 * 256 + p.getD 3 0,
   ((p.getD 4 0 * 256 + p.getD 5 0) * 256 + p.getD 6 0) * 256 + p.getD 7 0,
   p.getD 12 0)

/-- Per-packet encoder/transmit counters of `struct bluetooth_a2dp`:
`count` (wire-buffer fill in bytes, including the packet header),
`frame_count` (codec frames in the current packet), `samples` (PCM samples
in the current packet), `nsamples` (running sample timestamp) and
`seq_num` (the `uint16_t` packet sequence number). -/
structure A2dpPack where
  a2dpCount : Nat
  frameCount : Nat
  samples : Nat
  nsamples : Nat
  seqNum : Nat
deriving DecidableEq, Repr

/-- Observable outcomes of the poll/send pair inside `avdtp_write`. -/
structure AvdtpEnv where
  pollout : Bool
  pollResult : Int
  sendResult : Int
  sendErrno : Int
  pollErrno : Int
deriving DecidableEq, Repr

/-- State of the transmit counters after `avdtp_write`: the wire-buffer
fill is reset to the packet-header size, the per-packet frame and sample
counters to zero, and the `uint16_t` sequence number is incremented (with
16-bit wraparound).  In the C code this reset block is unconditional,
after the poll/send section, which is why it does not depend on the
environment. -/
def avdtp_write_post (st : A2dpPack) : A2dpPack :=
  { st with
    a2dpCount := packet_header_size
    frameCount := 0
    samples := 0
    seqNum := (st.seqNum + 1) % 65536 }

/-- Result of `avdtp_write`: the return value, the reset counters and the
packet header bytes that were written into the wire buffer. -/
structure AvdtpOut where
  ret : Int
  post : A2dpPack
  header : List Nat
deriving DecidableEq, Repr

/-- Packet transmit routine (`avdtp_write`): build the packet header in
the wire buffer, check writability with a zero-timeout poll, send the
packet only when the socket is writable (dropping it otherwise), then
unconditionally reset the fill and per-packet counters and advance the
sequence number. -/
def avdtp_write (env : AvdtpEnv) (st : A2dpPack) : AvdtpOut :=
  let hdr := rtp_packet_header_bytes st.seqNum st.nsamples st.frameCount
  let ret : Int :=
    if env.pollout then
      if env.sendResult < 0 then -env.sendErrno else env.sendResult
    else
      if env.pollResult < 0 then -env.pollErrno else 0
  ⟨ret, avdtp_write_post st, hdr⟩

/-- One encode step of the A2DP playback path: `sbc_encode` consumes one
codec block (`codesize` PCM bytes) and emits one compressed frame of
`frameLen` bytes into the wire buffer at the current fill offset, with
`link_mtu - count` bytes of output space available; encoding fails
(`encoded <= 0`) when the frame does not fit.  On success the fill,
frame, and sample counters advance, and when no further frame would fit
(`count + written >= link_mtu`) the wire buffer is handed to
`avdtp_write` (whose counter reset does not depend on the transmit
outcome, see `avdtp_write_post`).  Returns the new counters and the sizes
of any packet handed to `send`. -/
def a2dp_encode_step (codesize frameLen frameSize mtu : Nat) (st : A2dpPack) :
    Option (A2dpPack × List Nat) :=
  if frameLen ≤ mtu - st.a2dpCount then
    let st1 : A2dpPack :=
      { st with
        a2dpCount := st.a2dpCount + frameLen
        frameCount := st.frameCount + 1
        samples := st.samples + codesize / frameSize
        nsamples := st.nsamples + codesize / frameSize }
    if mtu ≤ st1.a2dpCount + frameLen then
      some (avdtp_write_post st1, [st1.a2dpCount])
    else
      some (st1, [])
  else none

/-- Result of the full-chunk encode loop of `bluetooth_a2dp_write`. -/
structure ChunkOut where
  pack : A2dpPack
  packets : List Nat
  bytesLeft : Nat
  encodeError : Bool
deriving DecidableEq, Repr

/-- The `while (bytes_left >= a2dp->codesize)` loop of
`bluetooth_a2dp_write`: encode full codec blocks straight from the caller
buffer, transmitting whenever the wire buffer cannot take another frame.
An encoding failure exits to the `done:` label with the remaining bytes
unconsumed.  (The C loop would not terminate for `codesize = 0`; the SBC
codesize is always positive, and the guard here makes the model total.) -/
def a2dp_write_chunks (codesize frameLen frameSize mtu bytes : Nat)
    (st : A2dpPack) : ChunkOut :=
  if hcb : 0 < codesize ∧ codesize ≤ bytes then
    match a2dp_encode_step codesize frameLen frameSize mtu st with
    | none => ⟨st, [], bytes, true⟩
    | some (st1, pkts) =>
      let r := a2dp_write_chunks codesize frameLen frameSize mtu (bytes - codesize) st1
      ⟨r.pack, pkts ++ r.packets, r.bytesLeft, r.encodeError⟩
  else ⟨st, [], bytes, false⟩
termination_by bytes
decreasing_by omega

/-- The per-Session buffer state touched by a playback transfer call:
`dataCount` is `data->count`, the number of PCM bytes parked in the
frame-accumulation (carry) buffer, and `pack` the transmit counters. -/
structure WriteState where
  dataCount : Nat
  pack : A2dpPack
deriving DecidableEq, Repr

/-- Result of the data-moving part of `bluetooth_a2dp_write`. -/
structure WriteDataOut where
  ws : WriteState
  packets : List Nat
  bytesLeft : Nat
deriving DecidableEq, Repr

/-- Data-moving part of `bluetooth_a2dp_write` (everything after the
underrun and autostart checks): first top up and encode any left-over
partial block from the previous call, then encode full chunks, and park
any trailing fragment in the carry buffer.  `bytesLeft` is the value the
return statement divides by the frame size (zero unless an encoding
error occurred or the input did not complete a partial block). -/
def bluetooth_a2dp_write_data (codesize frameLen frameSize mtu bytes : Nat)
    (ws : WriteState) : WriteDataOut :=
  if 0 < ws.dataCount then
    let needed := codesize - ws.dataCount
    if bytes < needed then
      ⟨{ ws with dataCount := ws.dataCount + bytes }, [], 0⟩
    else
      match a2dp_encode_step codesize frameLen frameSize mtu ws.pack with
      | none => ⟨ws, [], bytes⟩
      | some (st1, pkts1) =>
        let r := a2dp_write_chunks codesize frameLen frameSize mtu (bytes - needed) st1
        if r.encodeError then
          ⟨⟨0, r.pack⟩, pkts1 ++ r.packets, r.bytesLeft⟩
        else if 0 < r.bytesLeft then
          ⟨⟨r.bytesLeft, r.pack⟩, pkts1 ++ r.packets, 0⟩
        else
          ⟨⟨0, r.pack⟩, pkts1 ++ r.packets, 0⟩
  else
    let r := a2dp_write_chunks codesize frameLen frameSize mtu bytes ws.pack
    if r.encodeError then
      ⟨{ ws with pack := r.pack }, r.packets, r.bytesLeft⟩
    else if 0 < r.bytesLeft then
      ⟨⟨ws.dataCount + r.bytesLeft, r.pack⟩, r.packets, 0⟩
    else
      ⟨{ ws with pack := r.pack }, r.packets, 0⟩

/-- A sequence of A2DP playback transfer calls on a running stream, each
element giving the PCM byte count supplied by one call; returns the final
buffer state and every packet size handed to `send` across the whole
sequence. -/
def a2dp_write_calls (codesize frameLen frameSize mtu : Nat)
    (ws : WriteState) : List Nat → WriteState × List Nat
  | [] => (ws, [])
  | b :: bs =>
    let r := bluetooth_a2dp_write_data codesize frameLen frameSize mtu b ws
    let rest := a2dp_write_calls codesize frameLen frameSize mtu r.ws bs
    (rest.1, r.packets ++ rest.2)

/-- Observable outcomes of the autostart probe inside
`bluetooth_a2dp_write`: whether the software-parameter queries succeeded,
the configured start threshold, and the result of `snd_pcm_start`. -/
structure A2dpWriteEnv where
  swparamsOk : Bool
  threshold : Nat
  startResult : Int
deriving DecidableEq, Repr

/-- Result of a full `bluetooth_a2dp_write` call. -/
structure A2dpWriteOut where
  ret : Int
  stopped : Bool
  reset : Bool
  ws : WriteState
  packets : List Nat
deriving DecidableEq, Repr

/-- A2DP playback transfer call (`bluetooth_a2dp_write`).  If the
hardware pointer has advanced past the application pointer, the stream is
stopped (`bluetooth_playback_stop` sets the stopped flag and returns 0,
so the call returns `-EPIPE`) and the Session is flagged for a clock
reset.  Otherwise, after a possible autostart, the PCM bytes are encoded
and packed (`bluetooth_a2dp_write_data`) and the call reports the frames
consumed, `size - bytes_left / frame_size`. -/
def bluetooth_a2dp_write (env : A2dpWriteEnv) (hw appl : Nat)
    (prepared stopped reset : Bool) (codesize frameLen frameSize mtu size : Nat)
    (ws : WriteState) : A2dpWriteOut :=
  if appl < hw then
    ⟨-EPIPE, true, true, ws, []⟩
  else if prepared = true ∧ env.swparamsOk = true ∧ env.threshold ≤ appl ∧
      env.startResult ≠ 0 then
    ⟨env.startResult, stopped, reset, ws, []⟩
  else
    let r := bluetooth_a2dp_write_data codesize frameLen frameSize mtu
      (size * frameSize) ws
    ⟨(size : Int) - ((r.bytesLeft / frameSize : Nat) : Int),
      stopped, reset, r.ws, r.packets⟩

/-- Observable outcome of the `send` call inside `bluetooth_hsp_write`. -/
structure HspWriteEnv where
  sendResult : Int
  sendErrno : Int
deriving DecidableEq, Repr

/-- Result of a `bluetooth_hsp_write` call. -/
structure HspWriteOut where
  ret : Int
  stopped : Bool
  reset : Bool
  count : Nat
deriving DecidableEq, Repr

/-- Low-latency (SCO) playback transfer call (`bluetooth_hsp_write`).
The underrun check stops the stream and returns `-EPIPE` (note that, per
the source, this path does not touch the reset flag).  Otherwise raw PCM
accumulates in the transfer-unit-sized buffer, which is sent as a whole
once full; on a successful send the counter is reset, on failure broken
pipe maps to `-EIO` and other error numbers are propagated negated. -/
def bluetooth_hsp_write (env : HspWriteEnv) (hw appl : Nat)
    (stopped reset : Bool) (frameSize mtu count size : Nat) : HspWriteOut :=
  if appl < hw then
    ⟨-EPIPE, true, reset, count⟩
  else
    let framesToRead :=
      if count + size * frameSize ≤ mtu then size else (mtu - count) / frameSize
    let count1 := count + framesToRead * frameSize
    if count1 ≠ mtu then ⟨(framesToRead : Int), stopped, reset, count1⟩
    else if 0 < env.sendResult then ⟨(framesToRead : Int), stopped, reset, 0⟩
    else if env.sendResult < 0 then
      ⟨if env.sendErrno = EPIPE then -EIO_code else -env.sendErrno,
        stopped, reset, count1⟩
    else ⟨-EIO_code, stopped, reset, count1⟩

/-- Inputs of one iteration of the Audio Clock Simulator loop
(`playback_hw_thread`): the stopped and reset flags, the current hardware
pointer and elapsed-period bookkeeping, the whole periods elapsed since
the current time origin (computed in the source from the monotonic clock
and the period duration), and whether the elapsed seconds are still below
`UINT_SECS_MAX` (the periodic re-anchoring guard). -/
structure HwThreadIn where
  stopped : Bool
  reset : Bool
  hwPtr : Nat
  prevPeriods : Nat
  periods : Nat
  deltaSecSmall : Bool
deriving DecidableEq, Repr

/-- Outputs of one Clock Simulator iteration: the hardware pointer, the
elapsed-period bookkeeping, how many period-elapsed notifications were
written to the readiness pipe, and the reset flag. -/
structure HwThreadOut where
  hwPtr : Nat
  prevPeriods : Nat
  notifications : Nat
  reset : Bool
deriving DecidableEq, Repr

/-- One iteration of the Clock Simulator loop (`playback_hw_thread`).
When stopped, pointer advancement is skipped.  When the reset flag is
set, the time origin is re-anchored and the period counter zeroed; the
periods recomputed from the fresh origin within the same iteration are
zero, so the pointer stays put.  Otherwise, for each newly elapsed period
the pointer advances by one period size (wrapping modulo the buffer
size) and one notification byte is written; the bookkeeping counter is
reset to zero (with a fresh time origin) once the elapsed seconds
approach `UINT_MAX` microseconds. -/
def playback_hw_thread_iter (periodSize bufferSize : Nat) (s : HwThreadIn) :
    HwThreadOut :=
  if s.stopped then
    ⟨s.hwPtr, s.prevPeriods, 0, s.reset⟩
  else if s.reset then
    ⟨s.hwPtr, 0, 0, false⟩
  else if s.prevPeriods < s.periods then
    let frags := s.periods - s.prevPeriods
    ⟨(s.hwPtr + frags * periodSize) % bufferSize,
      if s.deltaSecSmall then s.periods else 0,
      frags, s.reset⟩
  else
    ⟨s.hwPtr, s.prevPeriods, 0, s.reset⟩

/-- Pointer callback (`bluetooth_pointer`): reports the Session's
virtual hardware pointer unchanged. -/
def bluetooth_pointer (hwPtr : Nat) : Nat :=
  hwPtr

/-- Observable outcomes of the control-channel and socket calls made by
`bluetooth_prepare`. -/
structure PrepareEnv where
  send_start : Int
  expect_start : Int
  expect_new_stream : Int
  data_fd : Int
  fd_errno : Int
  setsockopt_a2dp : Int
  so_errno : Int
  setsockopt_sco_bufs : Int
  setsockopt_sco_sndbuf : Int
  write_pipe : Int
deriving DecidableEq, Repr

/-- Result of a `bluetooth_prepare` call. -/
structure PrepareOut where
  ret : Int
  state : StreamState
  hwPtr : Nat
deriving DecidableEq, Repr

/-- Prepare callback (`bluetooth_prepare`): initialise the hardware
pointer (zero for playback, one period for capture), then, unless the
stream is already Started, run the START_STREAM exchange.  A failed
START_STREAM response resets the stream state to Closed when the error is
`-EAGAIN` (the remote implicitly closed the endpoint); other failures
leave the state untouched.  On success a fresh data descriptor is fetched
and configured and the state becomes Started (except on the SCO early
returns taken when a buffer-size socket option is applied). -/
def bluetooth_prepare (env : PrepareEnv) (playback transportA2dp : Bool)
    (periodSize : Nat) (st : StreamState) : PrepareOut :=
  let hw := if playback then 0 else periodSize
  let rs : Int × StreamState :=
    if st = StreamState.started then
      (if env.write_pipe < 0 then env.write_pipe else 0, st)
    else if env.send_start < 0 then (env.send_start, st)
    else if env.expect_start < 0 then
      (env.expect_start,
        if env.expect_start = -EAGAIN then StreamState.closed else st)
    else if env.expect_new_stream < 0 then (env.expect_new_stream, st)
    else if env.data_fd < 0 then (-env.fd_errno, st)
    else if transportA2dp then
      if env.setsockopt_a2dp < 0 then (-env.so_errno, st)
      else (if env.write_pipe < 0 then env.write_pipe else 0, StreamState.started)
    else
      if env.setsockopt_sco_bufs = 0 then (0, st)
      else if env.setsockopt_sco_sndbuf = 0 then (0, st)
      else (if env.write_pipe < 0 then env.write_pipe else 0, StreamState.started)
  ⟨rs.1, rs.2, hw⟩

/-- C9: every invocation of the packet transmit routine increments the
packet sequence number (with 16-bit wraparound) and resets the
wire-buffer fill to the packet-header size and the per-packet frame and
sample counters to zero, regardless of the poll and send outcomes — a
dropped packet still consumes a sequence number. -/
theorem avdtp_write_always_consumes_seq (env : AvdtpEnv) (st : A2dpPack) :
    (avdtp_write env st).post.a2dpCount = packet_header_size ∧
    (avdtp_write env st).post.frameCount = 0 ∧
    (avdtp_write env st).post.samples = 0 ∧
    (avdtp_write env st).post.seqNum = (st.seqNum + 1) % 65536 := by
  simp [avdtp_write, avdtp_write_post]

/-- C6: parsing the packet header constructed by the transmit path yields
the sequence number modulo 65536, the sample timestamp modulo `2 ^ 32`,
and the codec frame count that were written into it. -/
theorem rtp_header_roundtrip (env : AvdtpEnv) (st : A2dpPack)
    (hfc : st.frameCount < 256) :
    rtp_parse_header (avdtp_write env st).header
      = (st.seqNum % 65536, st.nsamples % 2 ^ 32, st.frameCount) := by
  simp only [avdtp_write, rtp_packet_header_bytes, rtp_parse_header,
    beBytes16, beBytes32, List.cons_append, List.nil_append,
    List.getD_cons_succ, List.getD_cons_zero, Prod.mk.injEq]
  refine ⟨?_, ?_, ?_⟩ <;> norm_num <;> omega

/-- Witness for `rtp_header_roundtrip` at a concrete packet. -/
theorem rtp_header_roundtrip_witness :
    (13 : Nat) < 256 ∧
    rtp_parse_header
        (avdtp_write ⟨true, 1, 5, 0, 0⟩ ⟨25, 13, 96, 70000, 65535⟩).header
      = (65535 % 65536, 70000 % 2 ^ 32, 13) :=
  ⟨by decide, rtp_header_roundtrip ⟨true, 1, 5, 0, 0⟩ ⟨25, 13, 96, 70000, 65535⟩ (by decide)⟩

/-- C5: on an iteration of the Clock Simulator loop with the Session
running (not stopped, not reset-flagged), the hardware pointer either
stays unchanged (when no new period has elapsed) or advances by exactly
the number of newly elapsed periods times the period size, taken modulo
the buffer size; exactly one notification is signalled per newly elapsed
period. -/
theorem clock_simulator_step (periodSize bufferSize : Nat) (s : HwThreadIn)
    (hs : s.stopped = false) (hr : s.reset = false) :
    (playback_hw_thread_iter periodSize bufferSize s).notifications
        = s.periods - s.prevPeriods ∧
    (s.periods ≤ s.prevPeriods →
      (playback_hw_thread_iter periodSize bufferSize s).hwPtr = s.hwPtr) ∧
    (s.prevPeriods < s.periods →
      (playback_hw_thread_iter periodSize bufferSize s).hwPtr
        = (s.hwPtr + (s.periods - s.prevPeriods) * periodSize) % bufferSize) := by
  unfold playback_hw_thread_iter
  rw [hs, hr]
  simp only [Bool.false_eq_true, if_false]
  by_cases h : s.prevPeriods < s.periods
  · rw [if_pos h]
    exact ⟨rfl, fun hle => by omega, fun _ => rfl⟩
  · rw [if_neg h]
    refine ⟨?_, fun _ => rfl, fun hlt => absurd hlt h⟩
    show 0 = s.periods - s.prevPeriods
    omega

/-- Witness for `clock_simulator_step` at a concrete iteration: three
newly elapsed periods advance the pointer by three period sizes modulo
the buffer size and signal three notifications. -/
theorem clock_simulator_step_witness :
    (⟨false, false, 1000, 2, 5, true⟩ : HwThreadIn).stopped = false ∧
    (playback_hw_thread_iter 512 6144 ⟨false, false, 1000, 2, 5, true⟩).notifications
      = 5 - 2 :=
  ⟨rfl, (clock_simulator_step 512 6144 ⟨false, false, 1000, 2, 5, true⟩ rfl rfl).1⟩

/-- Every branch of `bluetooth_prepare` leaves the pointer at the value
assigned at entry: zero for playback, one period size for capture. -/
theorem bluetooth_prepare_hwPtr (env : PrepareEnv)
    (playback transportA2dp : Bool) (periodSize : Nat) (st : StreamState) :
    (bluetooth_prepare env playback transportA2dp periodSize st).hwPtr
      = if playback then 0 else periodSize := by
  rfl

/-- C10: prepare initialises the reported hardware pointer asymmetrically
by direction — zero for playback, one period size for capture — so the
pointer callback reports a nonzero value right after preparing a capture
Session (for any positive period size). -/
theorem prepare_pointer_by_direction (env : PrepareEnv) (transportA2dp : Bool)
    (periodSize : Nat) (st : StreamState) :
    (bluetooth_prepare env true transportA2dp periodSize st).hwPtr = 0 ∧
    (bluetooth_prepare env false transportA2dp periodSize st).hwPtr = periodSize ∧
    (0 < periodSize →
      bluetooth_pointer
        (bluetooth_prepare env false transportA2dp periodSize st).hwPtr ≠ 0) := by
  refine ⟨?_, ?_, ?_⟩
  · rw [bluetooth_prepare_hwPtr]; rfl
  · rw [bluetooth_prepare_hwPtr]; rfl
  · intro hps
    unfold bluetooth_pointer
    rw [bluetooth_prepare_hwPtr]
    simp only [Bool.false_eq_true, if_false]
    omega

/-- Witness for `prepare_pointer_by_direction` on a concrete capture
prepare. -/
theorem prepare_pointer_by_direction_witness :
    (0 : Nat) < 1024 ∧
    bluetooth_pointer
      (bluetooth_prepare ⟨0, 0, 0, 3, 0, 0, 0, 1, 1, 1⟩ false true 1024
        StreamState.started).hwPtr ≠ 0 :=
  ⟨by decide,
    (prepare_pointer_by_direction ⟨0, 0, 0, 3, 0, 0, 0, 1, 1, 1⟩ true 1024
      StreamState.started).2.2 (by decide)⟩

/-- C7: when the START_STREAM response fails, `bluetooth_prepare` returns
the error as-is, resetting the stream state to Closed exactly when the
failure is `-EAGAIN` (the remote explicitly closed the endpoint) and
leaving the state unchanged for every other failure. -/
theorem start_failure_state_policy (env : PrepareEnv)
    (playback transportA2dp : Bool) (periodSize : Nat) (st : StreamState)
    (hst : st ≠ StreamState.started)
    (hsend : 0 ≤ env.send_start)
    (hfail : env.expect_start < 0) :
    (bluetooth_prepare env playback transportA2dp periodSize st).ret
        = env.expect_start ∧
    (env.expect_start = -EAGAIN →
      (bluetooth_prepare env playback transportA2dp periodSize st).state
        = StreamState.closed) ∧
    (env.expect_start ≠ -EAGAIN →
      (bluetooth_prepare env playback transportA2dp periodSize st).state = st) := by
  unfold bluetooth_prepare
  rw [if_neg hst, if_neg (show ¬ env.send_start < 0 by omega), if_pos hfail]
  refine ⟨rfl, fun he => ?_, fun hne => ?_⟩
  · show (if env.expect_start = -EAGAIN then StreamState.closed else st)
      = StreamState.closed
    rw [if_pos he]
  · show (if env.expect_start = -EAGAIN then StreamState.closed else st) = st
    rw [if_neg hne]

/-- Witness for `start_failure_state_policy`: a START failure with
`-EAGAIN` on a Configured Session resets the state to Closed. -/
theorem start_failure_state_policy_witness :
    (StreamState.configured ≠ StreamState.started ∧
      (0 : Int) ≤ 0 ∧ (-11 : Int) < 0) ∧
    (bluetooth_prepare ⟨0, -11, 0, 3, 0, 0, 0, 1, 1, 1⟩ true true 1024
      StreamState.configured).state = StreamState.closed :=
  ⟨by decide,
    (start_failure_state_policy ⟨0, -11, 0, 3, 0, 0, 0, 1, 1, 1⟩ true true 1024
      StreamState.configured (by decide) (by decide) (by decide)).2.1 (by decide)⟩

/-- C4 counterexample: an underrun entry into the low-latency HSP
playback path (application pointer 0, hardware pointer 1) stops the
stream and returns `-EPIPE`, but leaves the clock-reset flag false — the
claim that both transfer paths flag the Session for a clock reset fails
on `bluetooth_hsp_write`. -/
theorem hsp_underrun_no_reset_counterexample :
    (bluetooth_hsp_write ⟨0, 0⟩ 1 0 false false 2 48 0 4).ret = -EPIPE ∧
    (bluetooth_hsp_write ⟨0, 0⟩ 1 0 false false 2 48 0 4).stopped = true ∧
    (bluetooth_hsp_write ⟨0, 0⟩ 1 0 false false 2 48 0 4).reset = false := by
  decide

/-- C4 (amended): a transfer call entered with the application pointer
strictly below the hardware pointer stops the stream and returns
`-EPIPE` on both playback paths; the A2DP encode path additionally flags
the Session for a clock reset, while the low-latency HSP path leaves the
reset flag unchanged. -/
theorem underrun_stop_policy (aenv : A2dpWriteEnv) (henv : HspWriteEnv)
    (hw appl : Nat) (prepared stopped reset : Bool)
    (codesize frameLen frameSize mtu size count : Nat) (ws : WriteState)
    (h : appl < hw) :
    (bluetooth_a2dp_write aenv hw appl prepared stopped reset
        codesize frameLen frameSize mtu size ws).ret = -EPIPE ∧
    (bluetooth_a2dp_write aenv hw appl prepared stopped reset
        codesize frameLen frameSize mtu size ws).stopped = true ∧
    (bluetooth_a2dp_write aenv hw appl prepared stopped reset
        codesize frameLen frameSize mtu size ws).reset = true ∧
    (bluetooth_hsp_write henv hw appl stopped reset
        frameSize mtu count size).ret = -EPIPE ∧
    (bluetooth_hsp_write henv hw appl stopped reset
        frameSize mtu count size).stopped = true ∧
    (bluetooth_hsp_write henv hw appl stopped reset
        frameSize mtu count size).reset = reset := by
  unfold bluetooth_a2dp_write bluetooth_hsp_write
  rw [if_pos h, if_pos h]
  exact ⟨rfl, rfl, rfl, rfl, rfl, rfl⟩

/-- Witness for `underrun_stop_policy` at a concrete underrun. -/
theorem underrun_stop_policy_witness :
    (0 : Nat) < 2 ∧
    (bluetooth_a2dp_write ⟨true, 0, 0⟩ 2 0 false false false
        512 40 4 678 16 ⟨0, ⟨13, 0, 0, 0, 0⟩⟩).reset = true :=
  ⟨by decide,
    (underrun_stop_policy ⟨true, 0, 0⟩ ⟨0, 0⟩ 2 0 false false false
      512 40 4 678 16 48 ⟨0, ⟨13, 0, 0, 0, 0⟩⟩ (by decide)).2.2.1⟩

/-- Whenever the `configure:` tail of `bluetooth_a2dp_hw_params` reaches
the buffer-resize step (both SET_CONFIGURATION send and response
succeeded) and either reallocation fails, it returns `-ENOMEM` with both
buffers null. -/
theorem a2dp_hw_params_configure_alloc_fail (env : HwParamsEnv)
    (cap : SbcCapabilities) (st : StreamState) (dBuf aBuf : Option Nat)
    (mtu0 : Nat) (delay0 : Int)
    (hs1 : 0 ≤ env.setconf_send) (hs2 : 0 ≤ env.setconf_expect)
    (hra : ¬(env.realloc_data = true ∧ env.realloc_a2dp = true)) :
    (a2dp_hw_params_configure env cap st dBuf aBuf mtu0 delay0).ret
        = -ENOMEM ∧
    (a2dp_hw_params_configure env cap st dBuf aBuf mtu0 delay0).dataBuffer
        = none ∧
    (a2dp_hw_params_configure env cap st dBuf aBuf mtu0 delay0).a2dpBuffer
        = none := by
  have hrb : resize_buffers env.realloc_data env.realloc_a2dp env.link_mtu
      = (-ENOMEM, none, none) := by
    unfold resize_buffers
    rcases hd : env.realloc_data <;> rcases ha : env.realloc_a2dp <;>
      simp_all
  have hneg : (-ENOMEM : Int) < 0 := by decide
  unfold a2dp_hw_params_configure
  rw [if_neg (show ¬ env.setconf_send < 0 by omega),
    if_neg (show ¬ env.setconf_expect < 0 by omega)]
  simp only [hrb, hneg, if_pos]
  refine ⟨?_, ?_, ?_⟩ <;> first | rfl | trivial

/-- C8: when a hardware-parameter negotiation (A2DP or SCO) reaches the
buffer-resize step and either reallocation fails, the operation returns
`-ENOMEM` and both the wire buffer and the codec buffer are left null —
never one resized and the other not.  For the A2DP operation both routes
into the `configure:` tail are covered: the reconfiguration route (stream
not Closed with a differing request) and the fresh-configuration route
(stream Closed, OPEN succeeds, parameter intersection succeeds). -/
theorem alloc_failure_null_buffers (env : HwParamsEnv) (cfg : AlsaConfig)
    (cap : SbcCapabilities) (rate channels : Nat) (st : StreamState)
    (dBuf aBuf : Option Nat) (mtu0 : Nat) (delay0 : Int)
    (hreach : (st ≠ StreamState.closed ∧
        bluetooth_configuration_cmp cfg cap rate ≠ 0) ∨
      (st = StreamState.closed ∧
        (bluetooth_a2dp_init cfg cap rate channels).isSome = true))
    (hs1 : 0 ≤ env.setconf_send) (hs2 : 0 ≤ env.setconf_expect)
    (ho1 : 0 ≤ env.open_send) (ho2 : 0 ≤ env.open_expect)
    (hra : ¬(env.realloc_data = true ∧ env.realloc_a2dp = true)) :
    ((bluetooth_a2dp_hw_params env cfg cap rate channels st dBuf aBuf mtu0
        delay0).ret = -ENOMEM ∧
      (bluetooth_a2dp_hw_params env cfg cap rate channels st dBuf aBuf mtu0
        delay0).dataBuffer = none ∧
      (bluetooth_a2dp_hw_params env cfg cap rate channels st dBuf aBuf mtu0
        delay0).a2dpBuffer = none) ∧
    ((bluetooth_hsp_hw_params env dBuf aBuf mtu0 delay0).ret = -ENOMEM ∧
      (bluetooth_hsp_hw_params env dBuf aBuf mtu0 delay0).dataBuffer = none ∧
      (bluetooth_hsp_hw_params env dBuf aBuf mtu0 delay0).a2dpBuffer = none) := by
  have hrb : resize_buffers env.realloc_data env.realloc_a2dp env.link_mtu
      = (-ENOMEM, none, none) := by
    unfold resize_buffers
    rcases hd : env.realloc_data <;> rcases ha : env.realloc_a2dp <;>
      simp_all
  have hneg : (-ENOMEM : Int) < 0 := by decide
  constructor
  · rcases hreach with ⟨hst, hcmp⟩ | ⟨hst, hinit⟩
    · unfold bluetooth_a2dp_hw_params
      rw [if_pos hst, if_pos hcmp]
      exact a2dp_hw_params_configure_alloc_fail env cap st dBuf aBuf mtu0
        delay0 hs1 hs2 hra
    · unfold bluetooth_a2dp_hw_params
      rw [if_neg (show ¬ st ≠ StreamState.closed by simp [hst]),
        if_neg (show ¬ env.open_send < 0 by omega),
        if_neg (show ¬ env.open_expect < 0 by omega)]
      obtain ⟨cap1, hc1⟩ := Option.isSome_iff_exists.mp hinit
      simp only [hc1]
      exact a2dp_hw_params_configure_alloc_fail env cap1 StreamState.opened
        dBuf aBuf mtu0 delay0 hs1 hs2 hra
  · unfold bluetooth_hsp_hw_params
    rw [if_neg (show ¬ env.open_send < 0 by omega),
      if_neg (show ¬ env.open_expect < 0 by omega),
      if_neg (show ¬ env.setconf_send < 0 by omega),
      if_neg (show ¬ env.setconf_expect < 0 by omega)]
    simp only [hrb, hneg, if_pos]
    refine ⟨?_, ?_, ?_⟩ <;> first | rfl | trivial

/-- Witness for `alloc_failure_null_buffers`: a fresh configuration from
the Closed state (OPEN and parameter intersection succeed) in which the
second reallocation fails. -/
theorem alloc_failure_null_buffers_witness :
    ((StreamState.closed = StreamState.closed ∧
        (bluetooth_a2dp_init
          ⟨false, 0, false, 0, false, 0, false, 0, false, 0, false, 0⟩
          ⟨BT_SBC_SAMPLING_FREQ_44100, BT_A2DP_CHANNEL_MODE_STEREO,
            BT_A2DP_BLOCK_LENGTH_16, BT_A2DP_SUBBANDS_8,
            BT_A2DP_ALLOCATION_LOUDNESS, 2, 53⟩ 44100 2).isSome = true) ∧
      ¬((true : Bool) = true ∧ (false : Bool) = true)) ∧
    (bluetooth_a2dp_hw_params ⟨0, 0, 0, 0, 678, true, false, 0, 0⟩
      ⟨false, 0, false, 0, false, 0, false, 0, false, 0, false, 0⟩
      ⟨BT_SBC_SAMPLING_FREQ_44100, BT_A2DP_CHANNEL_MODE_STEREO,
        BT_A2DP_BLOCK_LENGTH_16, BT_A2DP_SUBBANDS_8,
        BT_A2DP_ALLOCATION_LOUDNESS, 2, 53⟩
      44100 2 StreamState.closed (some 678) (some 678) 678 0).dataBuffer
      = none :=
  ⟨⟨⟨rfl, by decide⟩, by decide⟩,
    (alloc_failure_null_buffers ⟨0, 0, 0, 0, 678, true, false, 0, 0⟩
      ⟨false, 0, false, 0, false, 0, false, 0, false, 0, false, 0⟩
      ⟨BT_SBC_SAMPLING_FREQ_44100, BT_A2DP_CHANNEL_MODE_STEREO,
        BT_A2DP_BLOCK_LENGTH_16, BT_A2DP_SUBBANDS_8,
        BT_A2DP_ALLOCATION_LOUDNESS, 2, 53⟩
      44100 2 StreamState.closed (some 678) (some 678) 678 0
      (Or.inr ⟨rfl, by decide⟩)
      (by decide) (by decide) (by decide) (by decide)
      (by decide)).1.2.1⟩

/-- The comparison routine reports 0 exactly when the request is
field-by-field identical to the stored configuration. -/
theorem configuration_cmp_eq_zero_iff (cfg : AlsaConfig)
    (cap : SbcCapabilities) (rate : Nat) :
    bluetooth_configuration_cmp cfg cap rate = 0 ↔
      configuration_identical cfg cap rate := by
  unfold bluetooth_configuration_cmp configuration_identical
  rcases hconv : bluetooth_convert_rate_to_a2dp rate with _ | r
  · simp
  · simp only [hconv]
    constructor
    · intro h0
      split_ifs at h0 with h1 h2 h3 h4 h5 h6
      push_neg at h1
      refine ⟨by rw [h1], ?_, ?_, ?_, ?_, ?_⟩ <;> intro hh <;> tauto
    · rintro ⟨hf, hb, hsb, ham, hbl, hcm⟩
      have hfe : r = cap.frequency := by injection hf
      split_ifs with h1 h2 h3 h4 h5 h6
      · exact absurd hfe.symm h1
      · rcases h2 with ⟨ha, h | h⟩
        · exact absurd (hb ha).1 h
        · exact absurd (hb ha).2 h
      · exact absurd h3.2 (hsb h3.1)
      · exact absurd h4.2 (ham h4.1)
      · exact absurd h5.2 (hbl h5.1)
      · exact absurd h6.2 (hcm h6.1)
      · rfl

/-- Every exit of the `configure:` tail has issued exactly one
SET_CONFIGURATION request. -/
theorem a2dp_hw_params_configure_requests (env : HwParamsEnv)
    (cap : SbcCapabilities) (st : StreamState) (dBuf aBuf : Option Nat)
    (mtu0 : Nat) (delay0 : Int) :
    (a2dp_hw_params_configure env cap st dBuf aBuf mtu0 delay0).setConfigRequests
      = 1 := by
  simp only [a2dp_hw_params_configure]
  split_ifs <;> rfl

/-- C1: on a Session whose stream state is not Closed, a hardware-parameter
request identical (field-by-field over rate, bitpool range, subbands,
allocation method, block length and channel mode) to the stored
configuration returns success without issuing any SET_CONFIGURATION
request; a differing request issues exactly one SET_CONFIGURATION
request, re-running the exchange. -/
theorem reconfiguration_idempotence (env : HwParamsEnv) (cfg : AlsaConfig)
    (cap : SbcCapabilities) (rate channels : Nat) (st : StreamState)
    (dBuf aBuf : Option Nat) (mtu0 : Nat) (delay0 : Int)
    (hst : st ≠ StreamState.closed) :
    (configuration_identical cfg cap rate →
      (bluetooth_a2dp_hw_params env cfg cap rate channels st dBuf aBuf mtu0
        delay0).ret = 0 ∧
      (bluetooth_a2dp_hw_params env cfg cap rate channels st dBuf aBuf mtu0
        delay0).setConfigRequests = 0) ∧
    (¬ configuration_identical cfg cap rate →
      (bluetooth_a2dp_hw_params env cfg cap rate channels st dBuf aBuf mtu0
        delay0).setConfigRequests = 1) := by
  constructor
  · intro hid
    have hz : bluetooth_configuration_cmp cfg cap rate = 0 :=
      (configuration_cmp_eq_zero_iff cfg cap rate).mpr hid
    unfold bluetooth_a2dp_hw_params
    rw [if_pos hst,
      if_neg (show ¬ bluetooth_configuration_cmp cfg cap rate ≠ 0 by
        simp [hz])]
    exact ⟨rfl, rfl⟩
  · intro hnid
    have hnz : bluetooth_configuration_cmp cfg cap rate ≠ 0 := fun h =>
      hnid ((configuration_cmp_eq_zero_iff cfg cap rate).mp h)
    unfold bluetooth_a2dp_hw_params
    rw [if_pos hst, if_pos hnz]
    exact a2dp_hw_params_configure_requests env cap st dBuf aBuf mtu0 delay0

/-- Witness for `reconfiguration_idempotence`: an identical request
against a stored 44100 Hz joint-stereo configuration touches the control
channel zero times. -/
theorem reconfiguration_idempotence_witness :
    StreamState.configured ≠ StreamState.closed ∧
    (configuration_identical
        ⟨false, 0, false, 0, false, 0, false, 0, false, 0, false, 0⟩
        ⟨BT_SBC_SAMPLING_FREQ_44100, BT_A2DP_CHANNEL_MODE_JOINT_STEREO,
          BT_A2DP_BLOCK_LENGTH_16, BT_A2DP_SUBBANDS_8,
          BT_A2DP_ALLOCATION_LOUDNESS, 2, 53⟩ 44100 →
      (bluetooth_a2dp_hw_params ⟨0, 0, 0, 0, 678, true, true, 0, 0⟩
        ⟨false, 0, false, 0, false, 0, false, 0, false, 0, false, 0⟩
        ⟨BT_SBC_SAMPLING_FREQ_44100, BT_A2DP_CHANNEL_MODE_JOINT_STEREO,
          BT_A2DP_BLOCK_LENGTH_16, BT_A2DP_SUBBANDS_8,
          BT_A2DP_ALLOCATION_LOUDNESS, 2, 53⟩ 44100 2 StreamState.configured
        (some 678) (some 678) 678 0).ret = 0 ∧
      (bluetooth_a2dp_hw_params ⟨0, 0, 0, 0, 678, true, true, 0, 0⟩
        ⟨false, 0, false, 0, false, 0, false, 0, false, 0, false, 0⟩
        ⟨BT_SBC_SAMPLING_FREQ_44100, BT_A2DP_CHANNEL_MODE_JOINT_STEREO,
          BT_A2DP_BLOCK_LENGTH_16, BT_A2DP_SUBBANDS_8,
          BT_A2DP_ALLOCATION_LOUDNESS, 2, 53⟩ 44100 2 StreamState.configured
        (some 678) (some 678) 678 0).setConfigRequests = 0) :=
  ⟨by decide,
    (reconfiguration_idempotence ⟨0, 0, 0, 0, 678, true, true, 0, 0⟩
      ⟨false, 0, false, 0, false, 0, false, 0, false, 0, false, 0⟩
      ⟨BT_SBC_SAMPLING_FREQ_44100, BT_A2DP_CHANNEL_MODE_JOINT_STEREO,
        BT_A2DP_BLOCK_LENGTH_16, BT_A2DP_SUBBANDS_8,
        BT_A2DP_ALLOCATION_LOUDNESS, 2, 53⟩ 44100 2 StreamState.configured
      (some 678) (some 678) 678 0 (by decide)).1⟩

/-- C2 counterexample: at 44100 Hz with the remote advertising the
stereo channel mode and bitpool range [2, 30], the negotiation
`bluetooth_a2dp_init` succeeds and consults the default-bitpool table,
whose value 53 lies outside the advertised range (53 > 30); the table
lookup therefore does not always yield a value within the remote's
advertised bounds, and `bluetooth_a2dp_init` in fact clamps it to 30. -/
theorem default_bitpool_counterexample :
    default_bitpool BT_SBC_SAMPLING_FREQ_44100 BT_A2DP_CHANNEL_MODE_STEREO
        = 53 ∧
    bluetooth_a2dp_init
        ⟨false, 0, false, 0, false, 0, false, 0, false, 0, false, 0⟩
        ⟨BT_SBC_SAMPLING_FREQ_44100, BT_A2DP_CHANNEL_MODE_STEREO,
          BT_A2DP_BLOCK_LENGTH_16, BT_A2DP_SUBBANDS_8,
          BT_A2DP_ALLOCATION_LOUDNESS, 2, 30⟩ 44100 2
      = some ⟨BT_SBC_SAMPLING_FREQ_44100, BT_A2DP_CHANNEL_MODE_STEREO,
          BT_A2DP_BLOCK_LENGTH_16, BT_A2DP_SUBBANDS_8,
          BT_A2DP_ALLOCATION_LOUDNESS, 2, 30⟩ ∧
    ¬ (2 ≤ 53 ∧ 53 ≤ 30) := by
  decide

/-- C2 (amended): for every negotiated rate and remote capability set,
when no bitpool override is configured, `bluetooth_a2dp_init` derives
`max_bitpool` as the default-bitpool table value clamped to the remote's
advertised maximum and `min_bitpool` as the advertised minimum clamped up
to `MIN_BITPOOL`; the derived maximum therefore never exceeds the
advertised maximum (though the raw table value itself may lie outside the
advertised range, see `default_bitpool_counterexample`). -/
theorem default_bitpool_clamped (cfg : AlsaConfig) (cap cap2 : SbcCapabilities)
    (rate channels : Nat)
    (hnb : cfg.has_bitpool = false)
    (hinit : bluetooth_a2dp_init cfg cap rate channels = some cap2) :
    cap2.max_bitpool ≤ cap.max_bitpool ∧
    cap2.max_bitpool ≤ default_bitpool cap2.frequency cap2.channel_mode ∧
    MIN_BITPOOL ≤ cap2.min_bitpool ∧
    cap.min_bitpool ≤ cap2.min_bitpool := by
  unfold bluetooth_a2dp_init at hinit
  rcases hconv : bluetooth_convert_rate_to_a2dp rate with _ | freq <;>
    simp only [hconv] at hinit
  · exact absurd hinit (by simp)
  · have hbp : a2dp_init_bitpools cfg cap.min_bitpool cap.max_bitpool freq
        (a2dp_init_channel_mode cfg cap channels)
        = (max MIN_BITPOOL cap.min_bitpool,
          min (default_bitpool freq (a2dp_init_channel_mode cfg cap channels))
            cap.max_bitpool) := by
      unfold a2dp_init_bitpools
      rw [hnb]
      simp
    split at hinit
    · exact absurd hinit (by simp)
    · split at hinit
      · exact absurd hinit (by simp)
      · split at hinit
        · exact absurd hinit (by simp)
        · injection hinit with hrec
          subst hrec
          simp only [hbp]
          refine ⟨Nat.min_le_right _ _, Nat.min_le_left _ _,
            Nat.le_max_left _ _, Nat.le_max_right _ _⟩

/-- Witness for `default_bitpool_clamped` on a concrete capability set
advertising everything with bitpool range [2, 53] at 44100 Hz stereo. -/
theorem default_bitpool_clamped_witness :
    (⟨false, 0, false, 0, false, 0, false, 0, false, 0, false, 0⟩ :
        AlsaConfig).has_bitpool = false ∧
    (⟨2, 1, 1, 1, 1, 2, 53⟩ : SbcCapabilities).max_bitpool
      ≤ default_bitpool 2 1 :=
  ⟨rfl,
    (default_bitpool_clamped
      ⟨false, 0, false, 0, false, 0, false, 0, false, 0, false, 0⟩
      ⟨15, 15, 15, 3, 3, 2, 53⟩ ⟨2, 1, 1, 1, 1, 2, 53⟩ 44100 2
      rfl (by decide)).2.1⟩


/-- An encode step cannot overfill the wire buffer: `sbc_encode` is given
only the space remaining below the transfer unit, so the new fill and any
packet handed to `send` stay within the MTU. -/
theorem a2dp_encode_step_bound (codesize frameLen frameSize mtu : Nat)
    (st st1 : A2dpPack) (pkts : List Nat)
    (hh : packet_header_size ≤ mtu) (hinv : st.a2dpCount ≤ mtu)
    (henc : a2dp_encode_step codesize frameLen frameSize mtu st
      = some (st1, pkts)) :
    st1.a2dpCount ≤ mtu ∧ ∀ p ∈ pkts, p ≤ mtu := by
  simp only [a2dp_encode_step] at henc
  split_ifs at henc with h1 h2
  · rw [Option.some.injEq, Prod.mk.injEq] at henc
    obtain ⟨he1, he2⟩ := henc
    subst he1
    subst he2
    constructor
    · exact hh
    · intro p hp
      simp only [List.mem_singleton] at hp
      omega
  · rw [Option.some.injEq, Prod.mk.injEq] at henc
    obtain ⟨he1, he2⟩ := henc
    subst he1
    subst he2
    constructor
    · show st.a2dpCount + frameLen ≤ mtu
      omega
    · simp

/-- The full-chunk encode loop preserves the wire-buffer bound and emits
only packets within the MTU. -/
theorem a2dp_write_chunks_bound (codesize frameLen frameSize mtu : Nat)
    (hh : packet_header_size ≤ mtu) :
    ∀ bytes st, st.a2dpCount ≤ mtu →
      (a2dp_write_chunks codesize frameLen frameSize mtu bytes st).pack.a2dpCount
          ≤ mtu ∧
      ∀ p ∈ (a2dp_write_chunks codesize frameLen frameSize mtu bytes st).packets,
        p ≤ mtu := by
  intro bytes
  induction bytes using Nat.strong_induction_on with
  | _ bytes ih =>
    intro st hst
    rw [a2dp_write_chunks]
    split_ifs with hcb
    · cases henc : a2dp_encode_step codesize frameLen frameSize mtu st with
      | none => simp only [henc]; exact ⟨hst, by simp⟩
      | some pr =>
        obtain ⟨st1, pkts⟩ := pr
        have hstep := a2dp_encode_step_bound codesize frameLen frameSize mtu
          st st1 pkts hh hst henc
        have hrec := ih (bytes - codesize) (by omega) st1 hstep.1
        simp only [henc]
        constructor
        · exact hrec.1
        · intro p hp
          rcases List.mem_append.mp hp with h | h
          · exact hstep.2 p h
          · exact hrec.2 p h
    · exact ⟨hst, by simp⟩

/-- One transfer call preserves the wire-buffer bound and emits only
packets within the MTU. -/
theorem bluetooth_a2dp_write_data_bound (codesize frameLen frameSize mtu
    bytes : Nat) (ws : WriteState) (hh : packet_header_size ≤ mtu)
    (hinv : ws.pack.a2dpCount ≤ mtu) :
    (bluetooth_a2dp_write_data codesize frameLen frameSize mtu bytes
        ws).ws.pack.a2dpCount ≤ mtu ∧
    ∀ p ∈ (bluetooth_a2dp_write_data codesize frameLen frameSize mtu bytes
        ws).packets, p ≤ mtu := by
  simp only [bluetooth_a2dp_write_data]
  by_cases hdc : 0 < ws.dataCount
  · rw [if_pos hdc]
    by_cases hlt : bytes < codesize - ws.dataCount
    · rw [if_pos hlt]
      exact ⟨hinv, by simp⟩
    · rw [if_neg hlt]
      cases henc : a2dp_encode_step codesize frameLen frameSize mtu ws.pack with
      | none => simp only [henc]; exact ⟨hinv, by simp⟩
      | some pr =>
        obtain ⟨st1, pkts1⟩ := pr
        have hstep := a2dp_encode_step_bound codesize frameLen frameSize mtu
          ws.pack st1 pkts1 hh hinv henc
        have hch := a2dp_write_chunks_bound codesize frameLen frameSize mtu hh
          (bytes - (codesize - ws.dataCount)) st1 hstep.1
        simp only [henc]
        split_ifs with h1 h2 <;>
          exact ⟨hch.1, fun p hp => (List.mem_append.mp hp).elim
            (hstep.2 p) (hch.2 p)⟩
  · rw [if_neg hdc]
    have hch := a2dp_write_chunks_bound codesize frameLen frameSize mtu hh
      bytes ws.pack hinv
    split_ifs with h1 h2 <;> exact ⟨hch.1, fun p hp => hch.2 p hp⟩

/-- An input smaller than the space left in the current codec block is
parked in the carry buffer unchanged: the carry count grows by exactly
the input size and nothing is transmitted. -/
theorem bluetooth_a2dp_write_data_accumulate (codesize frameLen frameSize mtu
    bytes : Nat) (ws : WriteState)
    (hacc : ws.dataCount + bytes < codesize) :
    bluetooth_a2dp_write_data codesize frameLen frameSize mtu bytes ws
      = ⟨⟨ws.dataCount + bytes, ws.pack⟩, [], 0⟩ := by
  simp only [bluetooth_a2dp_write_data]
  by_cases hdc : 0 < ws.dataCount
  · rw [if_pos hdc, if_pos (show bytes < codesize - ws.dataCount by omega)]
  · rw [if_neg hdc]
    have hc : a2dp_write_chunks codesize frameLen frameSize mtu bytes ws.pack
        = ⟨ws.pack, [], bytes, false⟩ := by
      rw [a2dp_write_chunks]
      rw [dif_neg (by omega)]
    have hdz : ws.dataCount = 0 := by omega
    simp only [hc]
    split_ifs with h1 h2 <;> simp_all

/-- Across any sequence of transfer calls the wire-buffer bound is
preserved and only packets within the MTU are emitted. -/
theorem a2dp_write_calls_bound (codesize frameLen frameSize mtu : Nat)
    (hh : packet_header_size ≤ mtu) :
    ∀ (bs : List Nat) (ws : WriteState), ws.pack.a2dpCount ≤ mtu →
      (a2dp_write_calls codesize frameLen frameSize mtu ws bs).1.pack.a2dpCount
          ≤ mtu ∧
      ∀ p ∈ (a2dp_write_calls codesize frameLen frameSize mtu ws bs).2,
        p ≤ mtu := by
  intro bs
  induction bs with
  | nil =>
    intro ws h
    exact ⟨h, by simp [a2dp_write_calls]⟩
  | cons b bs ih =>
    intro ws h
    simp only [a2dp_write_calls]
    have hd := bluetooth_a2dp_write_data_bound codesize frameLen frameSize mtu
      b ws hh h
    have hr := ih _ hd.1
    exact ⟨hr.1, fun p hp => (List.mem_append.mp hp).elim (hd.2 p) (hr.2 p)⟩

/-- Sub-block inputs accumulate exactly across calls: as long as the
total stays below one codec block, the carry buffer holds the running sum
and nothing is transmitted. -/
theorem a2dp_write_calls_accumulate (codesize frameLen frameSize mtu : Nat) :
    ∀ (bs : List Nat) (ws : WriteState), ws.dataCount + bs.sum < codesize →
      (a2dp_write_calls codesize frameLen frameSize mtu ws bs).1
        = ⟨ws.dataCount + bs.sum, ws.pack⟩ ∧
      (a2dp_write_calls codesize frameLen frameSize mtu ws bs).2 = [] := by
  intro bs
  induction bs with
  | nil =>
    intro ws h
    constructor
    · show ws = ⟨ws.dataCount + ([] : List Nat).sum, ws.pack⟩
      simp
    · rfl
  | cons b bs ih =>
    intro ws h
    simp only [a2dp_write_calls]
    rw [List.sum_cons] at h
    have hone := bluetooth_a2dp_write_data_accumulate codesize frameLen
      frameSize mtu b ws (by omega)
    rw [hone]
    have hr := ih ⟨ws.dataCount + b, ws.pack⟩ (by simp; omega)
    constructor
    · rw [hr.1]
      simp only [List.sum_cons]
      congr 1
      omega
    · simp only [hr.2]
      rfl

/-- C3: over any sequence of A2DP playback transfer calls (each list
entry one call's PCM byte count, on a running stream), PCM inputs that
stay below one codec block accumulate exactly in the carry buffer with
nothing transmitted; no packet handed to `send` ever exceeds the
negotiated transfer unit (header plus payload, the wire-buffer fill
counts from the header); and every transmit resets the wire-buffer fill
to the packet-header size and the per-packet frame and sample counters to
zero. -/
theorem a2dp_transfer_unit_packing (codesize frameLen frameSize mtu : Nat)
    (ws : WriteState) (bs : List Nat)
    (hmtu : packet_header_size ≤ mtu)
    (hinv : ws.pack.a2dpCount ≤ mtu) :
    (∀ p ∈ (a2dp_write_calls codesize frameLen frameSize mtu ws bs).2,
      p ≤ mtu) ∧
    (ws.dataCount + bs.sum < codesize →
      (a2dp_write_calls codesize frameLen frameSize mtu ws bs).1.dataCount
          = ws.dataCount + bs.sum ∧
      (a2dp_write_calls codesize frameLen frameSize mtu ws bs).2 = []) ∧
    (∀ (env : AvdtpEnv) (st : A2dpPack),
      (avdtp_write env st).post.a2dpCount = packet_header_size ∧
      (avdtp_write env st).post.frameCount = 0 ∧
      (avdtp_write env st).post.samples = 0) := by
  refine ⟨(a2dp_write_calls_bound codesize frameLen frameSize mtu hmtu bs ws
    hinv).2, fun hs => ?_, fun env st => ⟨rfl, rfl, rfl⟩⟩
  have h := a2dp_write_calls_accumulate codesize frameLen frameSize mtu bs ws hs
  exact ⟨by rw [h.1], h.2⟩

/-- Witness for `a2dp_transfer_unit_packing` on a concrete sequence of
two sub-block writes. -/
theorem a2dp_transfer_unit_packing_witness :
    (packet_header_size ≤ 20 ∧
      ((⟨0, ⟨13, 0, 0, 0, 0⟩⟩ : WriteState)).pack.a2dpCount ≤ 20) ∧
    ∀ p ∈ (a2dp_write_calls 4 5 2 20 ⟨0, ⟨13, 0, 0, 0, 0⟩⟩ [2, 1]).2,
      p ≤ 20 :=
  ⟨⟨by decide, by decide⟩,
    (a2dp_transfer_unit_packing 4 5 2 20 ⟨0, ⟨13, 0, 0, 0, 0⟩⟩ [2, 1]
      (by decide) (by decide)).1⟩

end BtPcm
